import Mathlib

/-!
Verification of the simulated supervisor server found in
`hassio-google-drive-backup/dev/simulated_supervisor.py`.

The Python module implements a stateful HTTP test double: a snapshot
store (two dictionaries: identifier to metadata record and identifier
to raw archive bytes), a two-level creation lock, a fault-injection
toggle, and a collection of request handlers.  This file gives a
shallow embedding of that module: JSON values, Python-dict operations
on association lists, the server state, and one Lean function per
request handler, each translated line by line from the source.

The helpers `createSnapshotTar`, `parseSnapshotInfo`, `all_addons`
(module `tests.helpers`) and `generateId`, `serve_bytes` (class
`BaseServer`) are code of the repository that is not part of the
sources given here; those definitions are modelled from the spec and
are marked `Modelled from the spec:` in their doc comments.
-/

/-- JSON values, as delivered by `await request.json()` in the source. -/
inductive Json where
  | str (s : String)
  | num (n : Int)
  | bool (b : Bool)
  | null
  | arr (elements : List Json)
  | obj (fields : List (String × Json))

/-- A Python dict with string keys, in insertion order. -/
abbrev Dict (α : Type) := List (String × α)

/-- Python `d.get(k)` / `d[k]`: value at the first matching key. -/
def dictGet {α : Type} : Dict α → String → Option α
  | [], _ => none
  | p :: rest, k => if p.1 = k then some p.2 else dictGet rest k

/-- Python `k in d`. -/
def dictContains {α : Type} (d : Dict α) (k : String) : Bool :=
  (dictGet d k).isSome

/-- Python `d[k] = v`: replace the value at an existing key in place,
otherwise append the new pair at the end (dict insertion order). -/
def dictSet {α : Type} : Dict α → String → α → Dict α
  | [], k, v => [(k, v)]
  | p :: rest, k, v => if p.1 = k then (k, v) :: rest else p :: dictSet rest k v

/-- Python `del d[k]`: remove the key from the dict. -/
def dictDel {α : Type} (d : Dict α) (k : String) : Dict α :=
  d.filter (fun p => decide (p.1 ≠ k))

/-- `body.get(k)` on a JSON request body (`None` when the key is absent). -/
def jGet (body : Json) (k : String) : Option Json :=
  match body with
  | .obj fields => dictGet fields k
  | _ => none

/-- Python `.copy()` as used on parsed JSON bodies: succeeds on dicts and
lists, raises `AttributeError` on the scalar values. -/
def jCopy : Json → Option Json
  | .obj fields => some (.obj fields)
  | .arr elements => some (.arr elements)
  | _ => none

/-- Python dict `a.update(b)`: set every key of `b` in `a`, in order. -/
def jUpdate (a : Dict Json) (b : Dict Json) : Dict Json :=
  b.foldl (fun acc kv => dictSet acc kv.1 kv.2) a

/-- Python truthiness of a JSON value (`if password:`). -/
def jTruthy : Json → Bool
  | .str s => decide (s ≠ "")
  | .num n => decide (n ≠ 0)
  | .bool b => b
  | .null => false
  | .arr elements => !elements.isEmpty
  | .obj fields => !fields.isEmpty

/-- Python `json_value == python_string`: true exactly when the JSON value
is that string.  Used wherever the source compares a parsed JSON value with
a Python string (`addon.get("slug", "") == slug` and the like). -/
def jIsStr (v : Option Json) (s : String) : Bool :=
  match v with
  | some (.str t) => decide (t = s)
  | _ => false

/-- Modelled from the spec: the metadata record produced by
`tests.helpers.parseSnapshotInfo` (not under the given sources).  The
spec's data model lists an identifier, a free-text name, a creation
timestamp, the total byte size, the included-folder and included-addon
manifests, and a protection flag. -/
structure SnapshotInfo where
  slug : String
  name : Json
  date : Nat
  size : Nat
  folders : Option Json
  addons : Option Json
  isProtected : Bool

/-- Modelled from the spec: an archive byte blob is opaque to callers and
only the Archive Codec interprets it; it round-trips the identifier, name,
timestamp, manifests and protection marker, plus a padding block that
controls total size.  A structurally invalid blob is `malformed`. -/
inductive Blob where
  | archive (slug : String) (name : Json) (date : Nat) (padSize : Nat)
      (folders : Option Json) (addons : Option Json) (password : Option Json)
  | malformed (junk : Nat)

/-- Modelled from the spec: `tests.helpers.createSnapshotTar` (not under
the given sources) — the Archive Codec's `Encode`, serialising the fields
into a self-describing container whose padding block controls total size. -/
def createSnapshotTar (slug : String) (name : Json) (date : Nat) (padSize : Nat)
    (folders : Option Json) (addons : Option Json) (password : Option Json) : Blob :=
  .archive slug name date padSize folders addons password

/-- Modelled from the spec: the total byte length of a blob; the padding
block controls total size, so a blob built with `padSize` has that size. -/
def blobSize : Blob → Nat
  | .archive _ _ _ padSize _ _ _ => padSize
  | .malformed junk => junk

/-- Modelled from the spec: `tests.helpers.parseSnapshotInfo` (not under
the given sources) — the Archive Codec's `Decode`, the inverse of `Encode`:
it succeeds on any blob produced by `Encode` and rejects structurally
invalid input with a `CorruptArchive` error.  The record is marked
protected exactly when a (truthy) password was supplied at creation. -/
def parseSnapshotInfo : Blob → Except String SnapshotInfo
  | .archive slug name date padSize folders addons password =>
      .ok { slug := slug, name := name, date := date, size := padSize,
            folders := folders, addons := addons,
            isProtected := match password with
              | none => false
              | some p => jTruthy p }
  | .malformed _ => .error "CorruptArchive"

/-- Modelled from the spec: `BaseServer.generateId` (not under the given
sources) generates a random alphanumeric identifier of the requested
length; the randomness is supplied as a seed drawn from an oracle. -/
def idAlphabet : List Char :=
  "abcdefghijklmnopqrstuvwxyz0123456789".toList

/-- Modelled from the spec: a fixed-length random alphanumeric identifier;
character `i` is picked from the alphabet by the seed. -/
def generateId (length : Nat) (seed : Nat) : String :=
  String.mk ((List.range length).map
    (fun i => idAlphabet.getD ((seed / 36 ^ i) % 36) 'a'))

/-- Modelled from the spec: `int(random.uniform(lo, hi))` — a uniform
random draw from `[lo, hi]` truncated to an integer, hence an integer in
`[lo, hi]`; the randomness is supplied as an oracle value `r`. -/
def drawPad (r lo hi : Nat) : Nat :=
  lo + r % (hi - lo + 1)

/-- The request headers the handlers inspect. -/
structure Headers where
  supervisorToken : Option String
  authorization : Option String
deriving DecidableEq

/-- The mutable state of `SimulatedSupervisor`, as set up in `__init__`.
`snapshot_lock` and `snapshot_inner_lock` hold the `locked()` state of the
two `asyncio.Lock`s.  `now` models the ambient clock `self._time.now()`;
`idDraws` and `padDraws` are the oracle streams feeding `generateId` and
`random.uniform`; `port` models `self._ports.server`. -/
structure SupState where
  auth_token : String
  snapshots : Dict SnapshotInfo
  snapshot_data : Dict Blob
  snapshot_lock : Bool
  snapshot_inner_lock : Bool
  entities : Dict Json
  events : List (String × Json)
  attributes : Dict Json
  notification : Option Json
  min_snapshot_size : Nat
  max_snapshot_size : Nat
  addon_slug : String
  options : Json
  username : String
  password : String
  addons : List (Dict Json)
  now : Nat
  port : Nat
  idDraws : List Nat
  padDraws : List Nat

/-- `defaultOptions` from the source. -/
def defaultOptions : Json :=
  .obj [("max_snapshots_in_hassio", .num 4),
        ("max_snapshots_in_google_drive", .num 4),
        ("days_between_snapshots", .num 3),
        ("use_ssl", .bool false)]

/-- `installAddon` from the source, with the default arguments
(`version="v1.0"`, `boot=True`, `started=True`). -/
def installAddon (s : SupState) (slug : String) (name : String) : SupState :=
  { s with addons := s.addons ++
      [[("name", .str ("Name for " ++ name)),
        ("slug", .str slug),
        ("description", .str (slug ++ " description")),
        ("version", .str "v1.0"),
        ("watchdog", .bool false),
        ("boot", .str "auto"),
        ("ingress_entry", .str ("/api/hassio_ingress/" ++ slug)),
        ("state", .str "started")]] }

/-- Modelled from the spec: `tests.helpers.all_addons` (not under the
given sources); the spec treats the add-on catalog as an external
collaborator, so the pre-installed catalog is modelled as empty — the
three add-ons installed by the constructor are appended on top of it. -/
def all_addons : List (Dict Json) := []

/-- The state built by `SimulatedSupervisor.__init__`. -/
def initState : SupState :=
  let base : SupState :=
    { auth_token := "test_header"
      snapshots := []
      snapshot_data := []
      snapshot_lock := false
      snapshot_inner_lock := false
      entities := []
      events := []
      attributes := []
      notification := none
      min_snapshot_size := 1024 * 1024 * 3
      max_snapshot_size := 1024 * 1024 * 5
      addon_slug := "self_slug"
      options := defaultOptions
      username := "user"
      password := "pass"
      addons := all_addons
      now := 0
      port := 0
      idDraws := []
      padDraws := [] }
  installAddon
    (installAddon
      (installAddon base "self_slug" "Home Assistant Google drive Backup")
      "42" "The answer")
    "sgadg" "sdgsagsdgsggsd"

/-- `_verifyHeader`: the request is authorised when the
`X-Supervisor-Token` header equals the token, or the `Authorization`
header equals `"Bearer "` followed by the token. -/
def verifyHeader (s : SupState) (h : Headers) : Bool :=
  if h.supervisorToken = some s.auth_token then true
  else if h.authorization = some ("Bearer " ++ s.auth_token) then true
  else false

/-- The HTTP-level rejections the handlers can raise. -/
inductive HttpError where
  | unauthorized
  | badRequest
  | notFound
  | serverError
deriving DecidableEq

/-- A successful HTTP response body. -/
inductive Resp where
  | jdata (d : Json)
  | jerror (result : String)
  | body (text : String)
  | bytes (b : Blob)
  | empty

/-- `_formatDataResponse`. -/
def formatDataResponse (d : Json) : Resp := .jdata d

/-- `_formatErrorResponse`. -/
def formatErrorResponse (e : String) : Resp := .jerror e

/-- The outcome of one handler call: the response (or HTTP rejection)
and the state after the call. -/
abbrev HandlerResult := Except HttpError Resp × SupState

/-- `toggleBlockSnapshot`: release the outer snapshot lock when it is
held, acquire it when it is free. -/
def toggleBlockSnapshot (s : SupState) : SupState :=
  if s.snapshot_lock then { s with snapshot_lock := false }
  else { s with snapshot_lock := true }

/-- The observable lock and authentication events of a creation attempt,
in the order the handler performs them. -/
inductive Ev where
  | acquireOuter
  | acquireInner
  | authCheck
  | releaseInner
  | releaseOuter
deriving DecidableEq

/-- The JSON rendering of a stored metadata record, as returned by the
list and detail endpoints. -/
def infoToJson (i : SnapshotInfo) : Json :=
  .obj [("slug", .str i.slug),
        ("name", i.name),
        ("date", .num i.date),
        ("size", .num i.size),
        ("folders", (i.folders).getD .null),
        ("addons", (i.addons).getD .null),
        ("protected", .bool i.isProtected)]

/-- `_newSnapshot`, with an event trace recording the lock and
authentication steps.  Line by line: when `self._snapshot_lock.locked()`
raise `HTTPBadRequest`; otherwise read the body, enter the outer lock,
enter the inner lock, run `_verifyHeader`, generate an 8-character slug,
read the password, build the archive with a random pad size, parse it
back, store the metadata and the bytes under the slug, and respond with
the slug; both `async with` blocks release their lock on every exit. -/
def newSnapshot (s : SupState) (h : Headers) (body : Json) :
    Except HttpError Resp × SupState × List Ev :=
  if s.snapshot_lock then (.error .badRequest, s, [])
  else if !verifyHeader s h then
    (.error .unauthorized,
     { s with snapshot_inner_lock := false, snapshot_lock := false },
     [.acquireOuter, .acquireInner, .authCheck, .releaseInner, .releaseOuter])
  else
    let slug := generateId 8 (s.idDraws.headD 0)
    let password := jGet body "password"
    let pad := drawPad (s.padDraws.headD 0) s.min_snapshot_size s.max_snapshot_size
    let data := createSnapshotTar slug ((jGet body "name").getD (.str "Default name"))
      s.now pad (jGet body "folders") (jGet body "addons") password
    match parseSnapshotInfo data with
    | .error _ =>
        (.error .serverError,
         { s with idDraws := s.idDraws.tail, padDraws := s.padDraws.tail,
                  snapshot_inner_lock := false, snapshot_lock := false },
         [.acquireOuter, .acquireInner, .authCheck, .releaseInner, .releaseOuter])
    | .ok info =>
        (.ok (formatDataResponse (.obj [("slug", .str slug)])),
         { s with snapshots := dictSet s.snapshots slug info,
                  snapshot_data := dictSet s.snapshot_data slug data,
                  idDraws := s.idDraws.tail, padDraws := s.padDraws.tail,
                  snapshot_inner_lock := false, snapshot_lock := false },
         [.acquireOuter, .acquireInner, .authCheck, .releaseInner, .releaseOuter])

/-- `_uploadSnapshot`: verify the header, buffer the multipart body into
one blob, decode it, and store metadata and bytes under the decoded slug;
any failure inside the `try` block is caught and answered with the
`"Bad snapshot"` error envelope. -/
def uploadSnapshot (s : SupState) (h : Headers) (b : Blob) : HandlerResult :=
  if !verifyHeader s h then (.error .unauthorized, s)
  else
    match parseSnapshotInfo b with
    | .ok info =>
        (.ok (formatDataResponse (.obj [("slug", .str info.slug)])),
         { s with snapshots := dictSet s.snapshots info.slug info,
                  snapshot_data := dictSet s.snapshot_data info.slug b })
    | .error _ => (.ok (formatErrorResponse "Bad snapshot"), s)

/-- `_deleteSnapshot`: verify, `HTTPNotFound` when the slug is not a
stored snapshot, otherwise delete the metadata record and then the byte
blob (a missing blob at that point would be a `KeyError`, modelled as a
server error after the metadata deletion already happened). -/
def deleteSnapshot (s : SupState) (h : Headers) (slug : String) : HandlerResult :=
  if !verifyHeader s h then (.error .unauthorized, s)
  else if !dictContains s.snapshots slug then (.error .notFound, s)
  else
    let s1 := { s with snapshots := dictDel s.snapshots slug }
    if !dictContains s.snapshot_data slug then (.error .serverError, s1)
    else (.ok (formatDataResponse (.str "deleted")),
          { s1 with snapshot_data := dictDel s1.snapshot_data slug })

/-- `_snapshotDetail`: verify, `HTTPNotFound` when the slug is unknown,
otherwise return the stored metadata record. -/
def snapshotDetail (s : SupState) (h : Headers) (slug : String) : HandlerResult :=
  if !verifyHeader s h then (.error .unauthorized, s)
  else
    match dictGet s.snapshots slug with
    | none => (.error .notFound, s)
    | some info => (.ok (formatDataResponse (infoToJson info)), s)

/-- `_snapshotDownload`: verify, `HTTPNotFound` when the slug has no
stored bytes, otherwise serve the raw blob (`serve_bytes` is modelled
from the spec as returning the raw archive bytes). -/
def snapshotDownload (s : SupState) (h : Headers) (slug : String) : HandlerResult :=
  if !verifyHeader s h then (.error .unauthorized, s)
  else
    match dictGet s.snapshot_data slug with
    | none => (.error .notFound, s)
    | some b => (.ok (.bytes b), s)

/-- `_getSnapshots`: verify, then list the stored metadata records. -/
def getSnapshots (s : SupState) (h : Headers) : HandlerResult :=
  if !verifyHeader s h then (.error .unauthorized, s)
  else (.ok (formatDataResponse
        (.obj [("snapshots", .arr (s.snapshots.map (fun p => infoToJson p.2)))])), s)

/-- The loop of `_stopAddon`: find an add-on whose slug matches and whose
state is `"started"`, set it to `"stopped"`; `none` when no add-on
qualifies (the handler then raises `HTTPBadRequest`). -/
def stopAddonLoop : List (Dict Json) → String → Option (List (Dict Json))
  | [], _ => none
  | a :: rest, slug =>
      if jIsStr (some ((dictGet a "slug").getD (.str ""))) slug
          && jIsStr (dictGet a "state") "started" then
        some (dictSet a "state" (.str "stopped") :: rest)
      else (stopAddonLoop rest slug).map (fun r => a :: r)

/-- The loop of `_startAddon`, symmetric to `stopAddonLoop`. -/
def startAddonLoop : List (Dict Json) → String → Option (List (Dict Json))
  | [], _ => none
  | a :: rest, slug =>
      if jIsStr (some ((dictGet a "slug").getD (.str ""))) slug
          && jIsStr (dictGet a "state") "stopped" then
        some (dictSet a "state" (.str "started") :: rest)
      else (startAddonLoop rest slug).map (fun r => a :: r)

/-- `_stopAddon`. -/
def stopAddon (s : SupState) (h : Headers) (slug : String) : HandlerResult :=
  if !verifyHeader s h then (.error .unauthorized, s)
  else
    match stopAddonLoop s.addons slug with
    | some addons2 => (.ok (formatDataResponse (.obj [])), { s with addons := addons2 })
    | none => (.error .badRequest, s)

/-- `_startAddon`. -/
def startAddon (s : SupState) (h : Headers) (slug : String) : HandlerResult :=
  if !verifyHeader s h then (.error .unauthorized, s)
  else
    match startAddonLoop s.addons slug with
    | some addons2 => (.ok (formatDataResponse (.obj [])), { s with addons := addons2 })
    | none => (.error .badRequest, s)

/-- The lookup loop shared by `_addonInfo` and the `addon` method: the
first add-on whose `slug` entry equals the given slug. -/
def findAddon : List (Dict Json) → String → Option (Dict Json)
  | [], _ => none
  | a :: rest, slug =>
      if jIsStr (some ((dictGet a "slug").getD (.str ""))) slug then some a
      else findAddon rest slug

/-- `_addonInfo`: verify, report `boot`, `watchdog` and `state` of the
matching add-on, `HTTPBadRequest` when there is none. -/
def addonInfo (s : SupState) (h : Headers) (slug : String) : HandlerResult :=
  if !verifyHeader s h then (.error .unauthorized, s)
  else
    match findAddon s.addons slug with
    | some a =>
        (.ok (formatDataResponse (.obj
          [("boot", (dictGet a "boot").getD .null),
           ("watchdog", (dictGet a "watchdog").getD .null),
           ("state", (dictGet a "state").getD .null)])), s)
    | none => (.error .badRequest, s)

/-- `_supervisorInfo`: verify, then report the add-on list. -/
def supervisorInfo (s : SupState) (h : Headers) : HandlerResult :=
  if !verifyHeader s h then (.error .unauthorized, s)
  else (.ok (formatDataResponse (.obj [("addons", .arr (s.addons.map Json.obj))])), s)

/-- `_supervisorLogs`. -/
def supervisorLogs (s : SupState) (h : Headers) : HandlerResult :=
  if !verifyHeader s h then (.error .unauthorized, s)
  else (.ok (.body "Supervisor Log line 1\nSupervisor Log Line 2"), s)

/-- `_coreLogs`. -/
def coreLogs (s : SupState) (h : Headers) : HandlerResult :=
  if !verifyHeader s h then (.error .unauthorized, s)
  else (.ok (.body "Core Log line 1\nCore Log Line 2"), s)

/-- `_coreInfo`. -/
def coreInfo (s : SupState) (h : Headers) : HandlerResult :=
  if !verifyHeader s h then (.error .unauthorized, s)
  else (.ok (formatDataResponse (.obj
    [("version", .str "1.3.3.7"),
     ("last_version", .str "1.3.3.8"),
     ("machine", .str "VS Dev"),
     ("ip_address", .str "127.0.0.1"),
     ("arch", .str "x86"),
     ("image", .str "image"),
     ("custom", .str "false"),
     ("boot", .str "true"),
     ("port", .num s.port),
     ("ssl", .str "false"),
     ("watchdog", .str "what is this"),
     ("wait_boot", .str "so many arguments")])), s)

/-- `_selfInfo`. -/
def selfInfo (s : SupState) (h : Headers) : HandlerResult :=
  if !verifyHeader s h then (.error .unauthorized, s)
  else (.ok (formatDataResponse (.obj
    [("webui", .str "http://some/address"),
     ("ingress_url", .str "fill me in later"),
     ("slug", .str s.addon_slug),
     ("options", s.options)])), s)

/-- `_miscInfo`. -/
def miscInfo (s : SupState) (h : Headers) : HandlerResult :=
  if !verifyHeader s h then (.error .unauthorized, s)
  else (.ok (formatDataResponse (.obj
    [("supervisor", .str "super version"),
     ("homeassistant", .str "ha version"),
     ("hassos", .str "hassos version"),
     ("hostname", .str "hostname"),
     ("machine", .str "machine"),
     ("arch", .str "Arch"),
     ("supported_arch", .str "supported arch"),
     ("channel", .str "channel")])), s)

/-- `_authenticate`: verify the header, then check the JSON body's
`username` and `password` against the configured pair. -/
def authenticate (s : SupState) (h : Headers) (body : Json) : HandlerResult :=
  if !verifyHeader s h then (.error .unauthorized, s)
  else if !(jIsStr (jGet body "username") s.username
            && jIsStr (jGet body "password") s.password) then
    (.error .badRequest, s)
  else (.ok (formatDataResponse (.obj [])), s)

/-- `self.addon(slug).update(body)`: merge the body's fields into the
first add-on whose slug matches, leaving the rest unchanged. -/
def updateFirstAddon : List (Dict Json) → String → Dict Json → List (Dict Json)
  | [], _, _ => []
  | a :: rest, slug, upd =>
      if jIsStr (some ((dictGet a "slug").getD (.str ""))) slug then
        jUpdate a upd :: rest
      else a :: updateFirstAddon rest slug upd

/-- `_updateOptions`: for slug `"self"` verify the header and replace the
stored options with the body's `options` entry (a missing entry is a
`KeyError`, a scalar entry fails `.copy()`; both modelled as server
errors).  For any other slug the handler performs the add-on update
without any header verification: it looks the add-on up (`None` is an
`AttributeError`, a server error) and merges the JSON body into it. -/
def updateOptions (s : SupState) (h : Headers) (slug : String) (body : Json) :
    HandlerResult :=
  if slug = "self" then
    if !verifyHeader s h then (.error .unauthorized, s)
    else
      match jGet body "options" with
      | some v =>
          match jCopy v with
          | some c => (.ok (formatDataResponse (.obj [])), { s with options := c })
          | none => (.error .serverError, s)
      | none => (.error .serverError, s)
  else
    match findAddon s.addons slug with
    | none => (.error .serverError, s)
    | some _ =>
        match body with
        | .obj fields =>
            (.ok (formatDataResponse (.obj [])),
             { s with addons := updateFirstAddon s.addons slug fields })
        | _ => (.error .serverError, s)

/-- `_haStateUpdate`: verify, then set the entity's state and attributes
from the body; a missing `state` key raises before any mutation, a
missing `attributes` key raises after the entity state was already set. -/
def haStateUpdate (s : SupState) (h : Headers) (entity : String) (body : Json) :
    HandlerResult :=
  if !verifyHeader s h then (.error .unauthorized, s)
  else
    match jGet body "state" with
    | none => (.error .serverError, s)
    | some st =>
        let s1 := { s with entities := dictSet s.entities entity st }
        match jGet body "attributes" with
        | none => (.error .serverError, s1)
        | some attrs =>
            (.ok .empty, { s1 with attributes := dictSet s1.attributes entity attrs })

/-- `_haEventUpdate`: verify, then append the named event and its body. -/
def haEventUpdate (s : SupState) (h : Headers) (name : String) (body : Json) :
    HandlerResult :=
  if !verifyHeader s h then (.error .unauthorized, s)
  else (.ok .empty, { s with events := s.events ++ [(name, body)] })

/-- `_createNotification`: verify, then store a copy of the body. -/
def createNotification (s : SupState) (h : Headers) (body : Json) : HandlerResult :=
  if !verifyHeader s h then (.error .unauthorized, s)
  else
    match jCopy body with
    | some c => (.ok .empty, { s with notification := some c })
    | none => (.error .serverError, s)

/-- `_dismissNotification`: verify, then clear the stored notification. -/
def dismissNotification (s : SupState) (h : Headers) : HandlerResult :=
  if !verifyHeader s h then (.error .unauthorized, s)
  else (.ok .empty, { s with notification := none })

/-- One inbound request, one constructor per route of `routes()` (the
two creation routes `/snapshots/new/full` and the second creation route
both dispatch to `_newSnapshot` and are one constructor here; the upload
body is the buffered multipart blob). -/
inductive Req where
  | updateOptions (slug : String) (body : Json)
  | dismissNotification
  | createNotification (body : Json)
  | haEventUpdate (name : String) (body : Json)
  | haStateUpdate (entity : String) (body : Json)
  | authenticate (body : Json)
  | miscInfo
  | selfInfo
  | addonInfo (slug : String)
  | snapshotDownload (slug : String)
  | snapshotDetail (slug : String)
  | startAddon (slug : String)
  | stopAddon (slug : String)
  | deleteSnapshot (slug : String)
  | uploadSnapshot (b : Blob)
  | newSnapshot (body : Json)
  | coreInfo
  | supervisorInfo
  | supervisorLogs
  | coreLogs
  | getSnapshots

/-- The dispatcher: route every request to its handler. -/
def handle (s : SupState) (h : Headers) : Req → HandlerResult
  | .updateOptions slug body => updateOptions s h slug body
  | .dismissNotification => dismissNotification s h
  | .createNotification body => createNotification s h body
  | .haEventUpdate name body => haEventUpdate s h name body
  | .haStateUpdate entity body => haStateUpdate s h entity body
  | .authenticate body => authenticate s h body
  | .miscInfo => miscInfo s h
  | .selfInfo => selfInfo s h
  | .addonInfo slug => addonInfo s h slug
  | .snapshotDownload slug => snapshotDownload s h slug
  | .snapshotDetail slug => snapshotDetail s h slug
  | .startAddon slug => startAddon s h slug
  | .stopAddon slug => stopAddon s h slug
  | .deleteSnapshot slug => deleteSnapshot s h slug
  | .uploadSnapshot b => uploadSnapshot s h b
  | .newSnapshot body => ((newSnapshot s h body).1, (newSnapshot s h body).2.1)
  | .coreInfo => coreInfo s h
  | .supervisorInfo => supervisorInfo s h
  | .supervisorLogs => supervisorLogs s h
  | .coreLogs => coreLogs s h
  | .getSnapshots => getSnapshots s h

/-- One externally observable action: an HTTP request with some headers,
or the test harness invoking the fault toggle. -/
inductive Act where
  | request (h : Headers) (r : Req)
  | toggle

/-- Apply one action to the state. -/
def applyAct (s : SupState) : Act → SupState
  | .request h r => (handle s h r).2
  | .toggle => toggleBlockSnapshot s

/-- Run a sequence of actions from a state. -/
def run (s : SupState) (acts : List Act) : SupState :=
  acts.foldl applyAct s

theorem dictGet_dictSet_self {α : Type} (d : Dict α) (k : String) (v : α) :
    dictGet (dictSet d k v) k = some v := by
  induction d with
  | nil => simp [dictGet, dictSet]
  | cons p rest ih =>
      by_cases hp : p.1 = k
      · simp [dictGet, dictSet, hp]
      · simp [dictGet, dictSet, hp, ih]

theorem dictGet_dictSet_ne {α : Type} (d : Dict α) (k k2 : String) (v : α)
    (hne : k2 ≠ k) : dictGet (dictSet d k v) k2 = dictGet d k2 := by
  have hne2 : ¬ k = k2 := fun hx => hne hx.symm
  induction d with
  | nil => simp [dictGet, dictSet, hne2]
  | cons p rest ih =>
      by_cases hp : p.1 = k
      · subst hp
        simp [dictGet, dictSet, hne2]
      · by_cases hp2 : p.1 = k2
        · simp [dictGet, dictSet, hp, hp2, hne]
        · simp [dictGet, dictSet, hp, hp2, ih]

theorem dictContains_dictSet {α : Type} (d : Dict α) (k k2 : String) (v : α) :
    dictContains (dictSet d k v) k2 = (k2 = k || dictContains d k2) := by
  by_cases hk : k2 = k
  · subst hk
    simp [dictContains, dictGet_dictSet_self]
  · simp [dictContains, dictGet_dictSet_ne d k k2 v hk, hk]

theorem dictGet_dictDel_self {α : Type} (d : Dict α) (k : String) :
    dictGet (dictDel d k) k = none := by
  induction d with
  | nil => simp [dictGet, dictDel]
  | cons p rest ih =>
      by_cases hp : p.1 = k
      · simpa [dictDel, List.filter_cons, hp] using ih
      · simpa [dictDel, List.filter_cons, hp, dictGet] using ih

theorem dictGet_dictDel_ne {α : Type} (d : Dict α) (k k2 : String) (hne : k2 ≠ k) :
    dictGet (dictDel d k) k2 = dictGet d k2 := by
  have hne2 : ¬ k = k2 := fun hx => hne hx.symm
  induction d with
  | nil => simp [dictGet, dictDel]
  | cons p rest ih =>
      by_cases hp : p.1 = k
      · subst hp
        simpa [dictDel, List.filter_cons, dictGet, hne2] using ih
      · by_cases hp2 : p.1 = k2
        · simp [dictDel, List.filter_cons, hp, dictGet, hp2, hne]
        · simpa [dictDel, List.filter_cons, hp, dictGet, hp2] using ih

theorem dictContains_dictDel {α : Type} (d : Dict α) (k k2 : String) :
    dictContains (dictDel d k) k2 = (decide (k2 ≠ k) && dictContains d k2) := by
  by_cases hk : k2 = k
  · subst hk
    simp [dictContains, dictGet_dictDel_self]
  · simp [dictContains, dictGet_dictDel_ne d k k2 hk, hk]

theorem dictSet_length_of_contains {α : Type} (d : Dict α) (k : String) (v : α)
    (hc : dictContains d k = true) : (dictSet d k v).length = d.length := by
  induction d with
  | nil => simp [dictContains, dictGet] at hc
  | cons p rest ih =>
      by_cases hp : p.1 = k
      · simp [dictSet, hp]
      · have hc2 : dictContains rest k = true := by
          simpa [dictContains, dictGet, hp] using hc
        simp [dictSet, hp, ih hc2]

theorem initState_lock : initState.snapshot_lock = false := rfl

/-- Iterated invocations of the fault toggle. -/
def iterToggle : Nat → SupState → SupState
  | 0, s => s
  | n + 1, s => iterToggle n (toggleBlockSnapshot s)

theorem toggleBlockSnapshot_lock (s : SupState) :
    (toggleBlockSnapshot s).snapshot_lock = !s.snapshot_lock := by
  by_cases hl : s.snapshot_lock <;> simp [toggleBlockSnapshot, hl]

theorem iterToggle_lock (n : Nat) (s : SupState) :
    (iterToggle n s).snapshot_lock =
      (if n % 2 = 1 then !s.snapshot_lock else s.snapshot_lock) := by
  induction n generalizing s with
  | zero => simp [iterToggle]
  | succ n ih =>
      rcases Nat.mod_two_eq_zero_or_one n with hn | hn
      · have hn2 : (n + 1) % 2 = 1 := by omega
        simp [iterToggle, ih, toggleBlockSnapshot_lock, hn, hn2]
      · have hn2 : ¬ (n + 1) % 2 = 1 := by omega
        simp [iterToggle, ih, toggleBlockSnapshot_lock, hn, hn2]

/-- C1: a create-snapshot request arriving while the outer snapshot lock
is held fails immediately with the Busy rejection (`HTTPBadRequest`,
distinct from `HTTPUnauthorized`), without acquiring or waiting on any
lock (empty event trace), and leaves the state — in particular the
metadata dict and the byte-blob dict — completely unchanged. -/
theorem create_while_locked_is_busy (s : SupState) (h : Headers) (body : Json)
    (hheld : s.snapshot_lock = true) :
    (newSnapshot s h body).1 = .error .badRequest ∧
    HttpError.badRequest ≠ HttpError.unauthorized ∧
    (newSnapshot s h body).2.1 = s ∧
    (newSnapshot s h body).2.1.snapshots = s.snapshots ∧
    (newSnapshot s h body).2.1.snapshot_data = s.snapshot_data ∧
    (newSnapshot s h body).2.2 = [] := by
  simp [newSnapshot, hheld]

theorem create_while_locked_is_busy_witness :
    (toggleBlockSnapshot initState).snapshot_lock = true ∧
    (newSnapshot (toggleBlockSnapshot initState)
      ⟨some "test_header", none⟩ (.obj [])).1 = .error .badRequest :=
  ⟨rfl, (create_while_locked_is_busy (toggleBlockSnapshot initState)
      ⟨some "test_header", none⟩ (.obj []) rfl).1⟩

/-- C2: the fault toggle inverts the outer lock's held state; starting
from the initial state (outer lock free, nothing in flight), after an odd
number of toggles the outer lock is held and every creation attempt is
rejected Busy (`HTTPBadRequest`), and after any even number of toggles
the outer lock is free again. -/
theorem fault_toggle_odd_blocks_creation (n : Nat) (hodd : n % 2 = 1)
    (h : Headers) (body : Json) :
    (∀ t : SupState, (toggleBlockSnapshot t).snapshot_lock = !t.snapshot_lock) ∧
    (iterToggle n initState).snapshot_lock = true ∧
    (newSnapshot (iterToggle n initState) h body).1 = .error .badRequest ∧
    (∀ m : Nat, m % 2 = 0 → (iterToggle m initState).snapshot_lock = false) := by
  have hlock : (iterToggle n initState).snapshot_lock = true := by
    simp [iterToggle_lock, hodd, initState_lock]
  refine ⟨toggleBlockSnapshot_lock, hlock, ?_, ?_⟩
  · simp [newSnapshot, hlock]
  · intro m hm
    have hm2 : ¬ m % 2 = 1 := by omega
    simp [iterToggle_lock, hm2, initState_lock]

theorem fault_toggle_odd_blocks_creation_witness :
    (1 % 2 = 1) ∧
    (newSnapshot (iterToggle 1 initState)
      ⟨some "test_header", none⟩ (.obj [])).1 = .error .badRequest :=
  ⟨rfl, (fault_toggle_odd_blocks_creation 1 rfl
      ⟨some "test_header", none⟩ (.obj [])).2.2.1⟩

/-- C3: a creation attempt that passes the gate always produces the event
trace acquire-outer, acquire-inner, auth-check, release-inner,
release-outer — the authentication check runs only after both locks are
taken, so an unauthenticated attempt occupies the gate for the duration
of the check — and afterwards, whether the attempt succeeded or failed
(in particular on Unauthorized), both locks are free. -/
theorem create_lock_ordering (s : SupState) (h : Headers) (body : Json)
    (hfree : s.snapshot_lock = false) :
    (newSnapshot s h body).2.2 =
      [Ev.acquireOuter, Ev.acquireInner, Ev.authCheck,
       Ev.releaseInner, Ev.releaseOuter] ∧
    (newSnapshot s h body).2.1.snapshot_lock = false ∧
    (newSnapshot s h body).2.1.snapshot_inner_lock = false := by
  by_cases ha : verifyHeader s h <;>
    simp [newSnapshot, hfree, ha, createSnapshotTar, parseSnapshotInfo]

theorem create_lock_ordering_witness :
    (initState.snapshot_lock = false) ∧
    (newSnapshot initState ⟨none, none⟩ (.obj [])).2.2 =
      [Ev.acquireOuter, Ev.acquireInner, Ev.authCheck,
       Ev.releaseInner, Ev.releaseOuter] :=
  ⟨rfl, (create_lock_ordering initState ⟨none, none⟩ (.obj []) rfl).1⟩

/-- The Store invariant: an identifier has a metadata record exactly when
it has a byte blob. -/
def storeInv (s : SupState) : Prop :=
  ∀ k : String, dictContains s.snapshots k = dictContains s.snapshot_data k

theorem storeInv_frame (s s2 : SupState) (hinv : storeInv s)
    (h1 : s2.snapshots = s.snapshots) (h2 : s2.snapshot_data = s.snapshot_data) :
    storeInv s2 := by
  intro k
  rw [h1, h2]
  exact hinv k

theorem storeInv_handle (s : SupState) (h : Headers) (r : Req)
    (hinv : storeInv s) : storeInv (handle s h r).2 := by
  cases r with
  | deleteSnapshot slug =>
      intro k
      by_cases ha : verifyHeader s h
      · by_cases hc : dictContains s.snapshots slug
        · have hc2 : dictContains s.snapshot_data slug = true := by
            rw [← hinv]; exact hc
          simp [handle, deleteSnapshot, ha, hc, hc2, dictContains_dictDel, hinv k]
        · simp [handle, deleteSnapshot, ha, hc, hinv k]
      · simp [handle, deleteSnapshot, ha, hinv k]
  | uploadSnapshot b =>
      intro k
      by_cases ha : verifyHeader s h
      · cases b with
        | archive slug name date pad folders addons password =>
            simp [handle, uploadSnapshot, ha, parseSnapshotInfo,
              dictContains_dictSet, hinv k]
        | malformed junk =>
            simp [handle, uploadSnapshot, ha, parseSnapshotInfo, hinv k]
      · simp [handle, uploadSnapshot, ha, hinv k]
  | newSnapshot body =>
      intro k
      by_cases hl : s.snapshot_lock
      · simp [handle, newSnapshot, hl, hinv k]
      · by_cases ha : verifyHeader s h
        · simp [handle, newSnapshot, hl, ha, createSnapshotTar, parseSnapshotInfo,
            dictContains_dictSet, hinv k]
        · simp [handle, newSnapshot, hl, ha, hinv k]
  | updateOptions slug body =>
      refine storeInv_frame s _ hinv ?_ ?_ <;>
        (simp only [handle]; unfold updateOptions; repeat' split) <;> rfl
  | dismissNotification =>
      refine storeInv_frame s _ hinv ?_ ?_ <;>
        (simp only [handle]; unfold dismissNotification; repeat' split) <;> rfl
  | createNotification body =>
      refine storeInv_frame s _ hinv ?_ ?_ <;>
        (simp only [handle]; unfold createNotification; repeat' split) <;> rfl
  | haEventUpdate name body =>
      refine storeInv_frame s _ hinv ?_ ?_ <;>
        (simp only [handle]; unfold haEventUpdate; repeat' split) <;> rfl
  | haStateUpdate entity body =>
      refine storeInv_frame s _ hinv ?_ ?_ <;>
        (simp only [handle]; unfold haStateUpdate; repeat' split) <;> rfl
  | authenticate body =>
      refine storeInv_frame s _ hinv ?_ ?_ <;>
        (simp only [handle]; unfold authenticate; repeat' split) <;> rfl
  | miscInfo =>
      refine storeInv_frame s _ hinv ?_ ?_ <;>
        (simp only [handle]; unfold miscInfo; repeat' split) <;> rfl
  | selfInfo =>
      refine storeInv_frame s _ hinv ?_ ?_ <;>
        (simp only [handle]; unfold selfInfo; repeat' split) <;> rfl
  | addonInfo slug =>
      refine storeInv_frame s _ hinv ?_ ?_ <;>
        (simp only [handle]; unfold addonInfo; repeat' split) <;> rfl
  | snapshotDownload slug =>
      refine storeInv_frame s _ hinv ?_ ?_ <;>
        (simp only [handle]; unfold snapshotDownload; repeat' split) <;> rfl
  | snapshotDetail slug =>
      refine storeInv_frame s _ hinv ?_ ?_ <;>
        (simp only [handle]; unfold snapshotDetail; repeat' split) <;> rfl
  | startAddon slug =>
      refine storeInv_frame s _ hinv ?_ ?_ <;>
        (simp only [handle]; unfold startAddon; repeat' split) <;> rfl
  | stopAddon slug =>
      refine storeInv_frame s _ hinv ?_ ?_ <;>
        (simp only [handle]; unfold stopAddon; repeat' split) <;> rfl
  | coreInfo =>
      refine storeInv_frame s _ hinv ?_ ?_ <;>
        (simp only [handle]; unfold coreInfo; repeat' split) <;> rfl
  | supervisorInfo =>
      refine storeInv_frame s _ hinv ?_ ?_ <;>
        (simp only [handle]; unfold supervisorInfo; repeat' split) <;> rfl
  | supervisorLogs =>
      refine storeInv_frame s _ hinv ?_ ?_ <;>
        (simp only [handle]; unfold supervisorLogs; repeat' split) <;> rfl
  | coreLogs =>
      refine storeInv_frame s _ hinv ?_ ?_ <;>
        (simp only [handle]; unfold coreLogs; repeat' split) <;> rfl
  | getSnapshots =>
      refine storeInv_frame s _ hinv ?_ ?_ <;>
        (simp only [handle]; unfold getSnapshots; repeat' split) <;> rfl

theorem storeInv_applyAct (s : SupState) (a : Act) (hinv : storeInv s) :
    storeInv (applyAct s a) := by
  cases a with
  | request h r => exact storeInv_handle s h r hinv
  | toggle =>
      refine storeInv_frame s _ hinv ?_ ?_ <;>
        (simp only [applyAct]; unfold toggleBlockSnapshot; repeat' split) <;> rfl

theorem storeInv_run (s : SupState) (acts : List Act) (hinv : storeInv s) :
    storeInv (run s acts) := by
  induction acts generalizing s with
  | nil => exact hinv
  | cons a rest ih =>
      exact ih (applyAct s a) (storeInv_applyAct s a hinv)

/-- C4: at every state reachable from the initial state by any sequence
of requests (creations, uploads, deletions, and every other route) and
fault toggles, an identifier has a metadata record in the snapshot dict
if and only if it has a byte blob in the data dict — creation and upload
insert into both dicts together under the same identifier, and deletion
removes from both together. -/
theorem store_has_metadata_iff_bytes (acts : List Act) :
    storeInv (run initState acts) :=
  storeInv_run initState acts (fun _ => rfl)

/-- The domain portion of the state: everything except the two lock
flags and the randomness-oracle bookkeeping. -/
def domainState (s : SupState) :=
  (s.snapshots, s.snapshot_data, s.options, s.addons, s.entities,
   s.attributes, s.events, s.notification)

/-- C5 counterexample: a request with no credential at all to
`POST /addons/42/options` is not rejected Unauthorized — it succeeds and
mutates the add-on record, because `_updateOptions` only calls
`_verifyHeader` when the slug is `"self"`. -/
theorem unauthorized_options_update_counterexample :
    verifyHeader initState ⟨none, none⟩ = false ∧
    (handle initState ⟨none, none⟩
        (.updateOptions "42" (.obj [("state", .str "hacked")]))).1 =
      .ok (formatDataResponse (.obj [])) ∧
    (handle initState ⟨none, none⟩
        (.updateOptions "42" (.obj [("state", .str "hacked")]))).1 ≠
      .error .unauthorized ∧
    dictGet ((handle initState ⟨none, none⟩
        (.updateOptions "42" (.obj [("state", .str "hacked")]))).2.addons.getD 1 [])
      "state" = some (.str "hacked") ∧
    dictGet (initState.addons.getD 1 []) "state" = some (.str "started") := by
  refine ⟨rfl, rfl, ?_, rfl, rfl⟩
  intro hc
  rw [show (handle initState ⟨none, none⟩
      (.updateOptions "42" (.obj [("state", .str "hacked")]))).1 =
      .ok (formatDataResponse (.obj [])) from rfl] at hc
  exact Except.noConfusion hc

/-- C5 (amended): an unauthenticated request receives Unauthorized and
mutates no domain state, on every path except the two the code exempts:
the add-on options endpoint with a slug other than `"self"` (whose
handler never checks the credential and performs the update anyway), and
snapshot creation while the outer lock is held (rejected Busy before the
credential is examined). -/
theorem unauthorized_rejected_on_all_other_paths (s : SupState) (h : Headers)
    (r : Req) (hauth : verifyHeader s h = false)
    (hopt : ∀ slug body, r = .updateOptions slug body → slug = "self")
    (hbusy : ∀ body, r = .newSnapshot body → s.snapshot_lock = false) :
    (handle s h r).1 = .error .unauthorized ∧
    domainState (handle s h r).2 = domainState s := by
  cases r with
  | updateOptions slug body =>
      have hs : slug = "self" := hopt slug body rfl
      subst hs
      simp [handle, updateOptions, hauth]
  | newSnapshot body =>
      have hl : s.snapshot_lock = false := hbusy body rfl
      simp [handle, newSnapshot, hl, hauth, domainState]
  | dismissNotification => simp [handle, dismissNotification, hauth]
  | createNotification body => simp [handle, createNotification, hauth]
  | haEventUpdate name body => simp [handle, haEventUpdate, hauth]
  | haStateUpdate entity body => simp [handle, haStateUpdate, hauth]
  | authenticate body => simp [handle, authenticate, hauth]
  | miscInfo => simp [handle, miscInfo, hauth]
  | selfInfo => simp [handle, selfInfo, hauth]
  | addonInfo slug => simp [handle, addonInfo, hauth]
  | snapshotDownload slug => simp [handle, snapshotDownload, hauth]
  | snapshotDetail slug => simp [handle, snapshotDetail, hauth]
  | startAddon slug => simp [handle, startAddon, hauth]
  | stopAddon slug => simp [handle, stopAddon, hauth]
  | deleteSnapshot slug => simp [handle, deleteSnapshot, hauth]
  | uploadSnapshot b => simp [handle, uploadSnapshot, hauth]
  | coreInfo => simp [handle, coreInfo, hauth]
  | supervisorInfo => simp [handle, supervisorInfo, hauth]
  | supervisorLogs => simp [handle, supervisorLogs, hauth]
  | coreLogs => simp [handle, coreLogs, hauth]
  | getSnapshots => simp [handle, getSnapshots, hauth]

theorem unauthorized_rejected_on_all_other_paths_witness :
    verifyHeader initState ⟨none, none⟩ = false ∧
    (handle initState ⟨none, none⟩ .miscInfo).1 = .error .unauthorized :=
  ⟨rfl, (unauthorized_rejected_on_all_other_paths initState ⟨none, none⟩ .miscInfo
      rfl (fun _ _ hx => nomatch hx) (fun _ hx => nomatch hx)).1⟩

/-- C6: an authenticated upload of a blob produced by the Archive Codec
stores, under the identifier embedded in the blob, the decoded metadata
record together with the uploaded bytes and answers with that
identifier; an authenticated upload of a malformed body is answered with
the handled `"Bad snapshot"` error envelope (an ordinary response, not a
raised error) and leaves the state — in particular both store dicts —
completely unchanged. -/
theorem upload_stores_or_rejects_cleanly (s : SupState) (h : Headers)
    (hauth : verifyHeader s h = true) :
    (∀ (slug : String) (name : Json) (date pad : Nat)
        (folders addons password : Option Json),
      (uploadSnapshot s h (.archive slug name date pad folders addons password)).1 =
        .ok (formatDataResponse (.obj [("slug", .str slug)])) ∧
      dictGet (uploadSnapshot s h
          (.archive slug name date pad folders addons password)).2.snapshots slug =
        some { slug := slug, name := name, date := date, size := pad,
               folders := folders, addons := addons,
               isProtected := match password with
                 | none => false
                 | some p => jTruthy p } ∧
      dictGet (uploadSnapshot s h
          (.archive slug name date pad folders addons password)).2.snapshot_data slug =
        some (.archive slug name date pad folders addons password)) ∧
    (∀ junk : Nat,
      uploadSnapshot s h (.malformed junk) =
        (.ok (formatErrorResponse "Bad snapshot"), s)) := by
  constructor
  · intro slug name date pad folders addons password
    refine ⟨?_, ?_, ?_⟩ <;>
      simp [uploadSnapshot, hauth, parseSnapshotInfo, dictGet_dictSet_self]
  · intro junk
    simp [uploadSnapshot, hauth, parseSnapshotInfo]

theorem upload_stores_or_rejects_cleanly_witness :
    verifyHeader initState ⟨some "test_header", none⟩ = true ∧
    (uploadSnapshot initState ⟨some "test_header", none⟩
        (.archive "abcd1234" (.str "n") 7 42 none none none)).1 =
      .ok (formatDataResponse (.obj [("slug", .str "abcd1234")])) ∧
    uploadSnapshot initState ⟨some "test_header", none⟩ (.malformed 3) =
      (.ok (formatErrorResponse "Bad snapshot"), initState) :=
  ⟨rfl,
   ((upload_stores_or_rejects_cleanly initState ⟨some "test_header", none⟩ rfl).1
      "abcd1234" (.str "n") 7 42 none none none).1,
   (upload_stores_or_rejects_cleanly initState ⟨some "test_header", none⟩ rfl).2 3⟩

theorem dictGet_eq_none_of_not_contains {α : Type} (d : Dict α) (k : String)
    (hc : dictContains d k = false) : dictGet d k = none := by
  unfold dictContains at hc
  cases hg : dictGet d k with
  | none => rfl
  | some v => rw [hg] at hc; simp at hc

/-- The metadata record a successful creation builds and stores. -/
def createdInfo (s : SupState) (body : Json) : SnapshotInfo :=
  { slug := generateId 8 (s.idDraws.headD 0),
    name := (jGet body "name").getD (.str "Default name"),
    date := s.now,
    size := drawPad (s.padDraws.headD 0) s.min_snapshot_size s.max_snapshot_size,
    folders := jGet body "folders",
    addons := jGet body "addons",
    isProtected := match jGet body "password" with
      | none => false
      | some p => jTruthy p }

/-- The archive blob a successful creation builds and stores. -/
def createdBlob (s : SupState) (body : Json) : Blob :=
  createSnapshotTar (generateId 8 (s.idDraws.headD 0))
    ((jGet body "name").getD (.str "Default name")) s.now
    (drawPad (s.padDraws.headD 0) s.min_snapshot_size s.max_snapshot_size)
    (jGet body "folders") (jGet body "addons") (jGet body "password")

theorem newSnapshot_ok (s : SupState) (h : Headers) (body : Json)
    (hfree : s.snapshot_lock = false) (hauth : verifyHeader s h = true) :
    newSnapshot s h body =
      (.ok (formatDataResponse (.obj [("slug",
          .str (generateId 8 (s.idDraws.headD 0)))])),
       { s with
          snapshots := dictSet s.snapshots (generateId 8 (s.idDraws.headD 0))
            (createdInfo s body),
          snapshot_data := dictSet s.snapshot_data (generateId 8 (s.idDraws.headD 0))
            (createdBlob s body),
          idDraws := s.idDraws.tail, padDraws := s.padDraws.tail,
          snapshot_inner_lock := false, snapshot_lock := false },
       [.acquireOuter, .acquireInner, .authCheck, .releaseInner, .releaseOuter]) := by
  simp [newSnapshot, hfree, hauth, createSnapshotTar, parseSnapshotInfo,
    createdInfo, createdBlob]

theorem snapshotDetail_found (s2 : SupState) (h : Headers) (slug : String)
    (info : SnapshotInfo) (hv : verifyHeader s2 h = true)
    (hg : dictGet s2.snapshots slug = some info) :
    (snapshotDetail s2 h slug).1 = .ok (formatDataResponse (infoToJson info)) := by
  simp [snapshotDetail, hv, hg]

theorem snapshotDetail_missing (s2 : SupState) (h : Headers) (slug : String)
    (hv : verifyHeader s2 h = true) (hg : dictGet s2.snapshots slug = none) :
    (snapshotDetail s2 h slug).1 = .error .notFound := by
  simp [snapshotDetail, hv, hg]

theorem snapshotDownload_found (s2 : SupState) (h : Headers) (slug : String)
    (b : Blob) (hv : verifyHeader s2 h = true)
    (hg : dictGet s2.snapshot_data slug = some b) :
    (snapshotDownload s2 h slug).1 = .ok (.bytes b) := by
  simp [snapshotDownload, hv, hg]

theorem snapshotDownload_missing (s2 : SupState) (h : Headers) (slug : String)
    (hv : verifyHeader s2 h = true) (hg : dictGet s2.snapshot_data slug = none) :
    (snapshotDownload s2 h slug).1 = .error .notFound := by
  simp [snapshotDownload, hv, hg]

/-- C7: a successful creation answers with the generated identifier, and
that identifier resolves both through the detail endpoint — whose record
carries the name and protection flag the creation request established —
and through the download endpoint, whose bytes decode back to the very
same record (same identifier, name and protection flag). -/
theorem create_roundtrip (s : SupState) (h : Headers) (body : Json)
    (hfree : s.snapshot_lock = false) (hauth : verifyHeader s h = true) :
    ∃ info : SnapshotInfo,
      (newSnapshot s h body).1 =
        .ok (formatDataResponse (.obj [("slug", .str info.slug)])) ∧
      info.slug = generateId 8 (s.idDraws.headD 0) ∧
      info.name = (jGet body "name").getD (.str "Default name") ∧
      info.isProtected = (match jGet body "password" with
        | none => false
        | some p => jTruthy p) ∧
      (snapshotDetail (newSnapshot s h body).2.1 h info.slug).1 =
        .ok (formatDataResponse (infoToJson info)) ∧
      ∃ b : Blob,
        (snapshotDownload (newSnapshot s h body).2.1 h info.slug).1 =
          .ok (.bytes b) ∧
        parseSnapshotInfo b = .ok info := by
  have hstep := newSnapshot_ok s h body hfree hauth
  refine ⟨createdInfo s body, ?_, rfl, rfl, rfl, ?_,
    ⟨createdBlob s body, ?_, ?_⟩⟩
  · rw [hstep]; rfl
  · rw [hstep]
    exact snapshotDetail_found _ h _ _ hauth (dictGet_dictSet_self _ _ _)

  · rw [hstep]
    exact snapshotDownload_found _ h _ _ hauth (dictGet_dictSet_self _ _ _)
  · simp [createdBlob, createSnapshotTar, parseSnapshotInfo, createdInfo]

theorem create_roundtrip_witness :
    initState.snapshot_lock = false ∧
    verifyHeader initState ⟨some "test_header", none⟩ = true ∧
    ∃ info : SnapshotInfo,
      (newSnapshot initState ⟨some "test_header", none⟩ (.obj [])).1 =
        .ok (formatDataResponse (.obj [("slug", .str info.slug)])) ∧
      info.slug = generateId 8 (initState.idDraws.headD 0) ∧
      info.name = (jGet (.obj []) "name").getD (.str "Default name") ∧
      info.isProtected = (match jGet (.obj []) "password" with
        | none => false
        | some p => jTruthy p) ∧
      (snapshotDetail (newSnapshot initState ⟨some "test_header", none⟩
          (.obj [])).2.1 ⟨some "test_header", none⟩ info.slug).1 =
        .ok (formatDataResponse (infoToJson info)) ∧
      ∃ b : Blob,
        (snapshotDownload (newSnapshot initState ⟨some "test_header", none⟩
            (.obj [])).2.1 ⟨some "test_header", none⟩ info.slug).1 =
          .ok (.bytes b) ∧
        parseSnapshotInfo b = .ok info :=
  ⟨rfl, rfl,
   create_roundtrip initState ⟨some "test_header", none⟩ (.obj []) rfl rfl⟩

theorem deleteSnapshot_found (s : SupState) (h : Headers) (slug : String)
    (hauth : verifyHeader s h = true)
    (hc : dictContains s.snapshots slug = true)
    (hd : dictContains s.snapshot_data slug = true) :
    deleteSnapshot s h slug =
      (.ok (formatDataResponse (.str "deleted")),
       { s with snapshots := dictDel s.snapshots slug,
                snapshot_data := dictDel s.snapshot_data slug }) := by
  simp [deleteSnapshot, hauth, hc, hd]

/-- C8: with a valid credential, the detail, download and delete
operations on an identifier absent from the Store each answer NotFound,
and the failed delete changes nothing; on an identifier present in the
Store, delete succeeds, removes the identifier from both dicts, and
subsequent detail and download requests for it answer NotFound. -/
theorem notfound_and_delete_removal (s : SupState) (h : Headers) (slug : String)
    (hauth : verifyHeader s h = true) :
    (dictContains s.snapshots slug = false →
      snapshotDetail s h slug = (.error .notFound, s) ∧
      deleteSnapshot s h slug = (.error .notFound, s)) ∧
    (dictContains s.snapshot_data slug = false →
      snapshotDownload s h slug = (.error .notFound, s)) ∧
    (dictContains s.snapshots slug = true →
      dictContains s.snapshot_data slug = true →
      (deleteSnapshot s h slug).1 = .ok (formatDataResponse (.str "deleted")) ∧
      dictContains (deleteSnapshot s h slug).2.snapshots slug = false ∧
      dictContains (deleteSnapshot s h slug).2.snapshot_data slug = false ∧
      (snapshotDetail (deleteSnapshot s h slug).2 h slug).1 = .error .notFound ∧
      (snapshotDownload (deleteSnapshot s h slug).2 h slug).1 = .error .notFound) := by
  refine ⟨?_, ?_, ?_⟩
  · intro hc
    constructor
    · simp [snapshotDetail, hauth, dictGet_eq_none_of_not_contains s.snapshots slug hc]
    · simp [deleteSnapshot, hauth, hc]
  · intro hc
    simp [snapshotDownload, hauth,
      dictGet_eq_none_of_not_contains s.snapshot_data slug hc]
  · intro hc hd
    have hstep := deleteSnapshot_found s h slug hauth hc hd
    rw [hstep]
    refine ⟨rfl, ?_, ?_, ?_, ?_⟩
    · simp [dictContains_dictDel]
    · simp [dictContains_dictDel]
    · exact snapshotDetail_missing _ h _ hauth (dictGet_dictDel_self _ _)
    · exact snapshotDownload_missing _ h _ hauth (dictGet_dictDel_self _ _)

theorem notfound_and_delete_removal_witness :
    verifyHeader initState ⟨some "test_header", none⟩ = true ∧
    dictContains initState.snapshots "nosuch" = false ∧
    snapshotDetail initState ⟨some "test_header", none⟩ "nosuch" =
      (.error .notFound, initState) :=
  ⟨rfl, rfl,
   ((notfound_and_delete_removal initState ⟨some "test_header", none⟩ "nosuch"
      rfl).1 rfl).1⟩

theorem generateId_length (n seed : Nat) : (generateId n seed).length = n := by
  simp [generateId, String.length]

theorem drawPad_bounds (r lo hi : Nat) (hle : lo ≤ hi) :
    lo ≤ drawPad r lo hi ∧ drawPad r lo hi ≤ hi := by
  unfold drawPad
  have h1 : r % (hi - lo + 1) < hi - lo + 1 := Nat.mod_lt r (Nat.succ_pos _)
  omega

/-- C9: under the default size configuration, a successful creation
answers with the freshly generated 8-character identifier; the pad size
drawn for this creation lies in [3 MiB, 5 MiB]; and the blob served by
the download endpoint for that identifier has total size in
[3 MiB, 5 MiB]. -/
theorem create_id_and_size_bounds (s : SupState) (h : Headers) (body : Json)
    (hfree : s.snapshot_lock = false) (hauth : verifyHeader s h = true)
    (hmin : s.min_snapshot_size = 1024 * 1024 * 3)
    (hmax : s.max_snapshot_size = 1024 * 1024 * 5) :
    (newSnapshot s h body).1 = .ok (formatDataResponse (.obj
      [("slug", .str (generateId 8 (s.idDraws.headD 0)))])) ∧
    (generateId 8 (s.idDraws.headD 0)).length = 8 ∧
    1024 * 1024 * 3 ≤
      drawPad (s.padDraws.headD 0) s.min_snapshot_size s.max_snapshot_size ∧
    drawPad (s.padDraws.headD 0) s.min_snapshot_size s.max_snapshot_size ≤
      1024 * 1024 * 5 ∧
    ∃ b : Blob,
      (snapshotDownload (newSnapshot s h body).2.1 h
        (generateId 8 (s.idDraws.headD 0))).1 = .ok (.bytes b) ∧
      blobSize b =
        drawPad (s.padDraws.headD 0) s.min_snapshot_size s.max_snapshot_size ∧
      1024 * 1024 * 3 ≤ blobSize b ∧ blobSize b ≤ 1024 * 1024 * 5 := by
  have hle : s.min_snapshot_size ≤ s.max_snapshot_size := by
    rw [hmin, hmax]; norm_num
  have hbounds := drawPad_bounds (s.padDraws.headD 0) s.min_snapshot_size
    s.max_snapshot_size hle
  have hlo : 1024 * 1024 * 3 ≤
      drawPad (s.padDraws.headD 0) s.min_snapshot_size s.max_snapshot_size := by
    rw [← hmin]; exact hbounds.1
  have hhi : drawPad (s.padDraws.headD 0) s.min_snapshot_size s.max_snapshot_size ≤
      1024 * 1024 * 5 := by
    rw [← hmax]; exact hbounds.2
  have hstep := newSnapshot_ok s h body hfree hauth
  refine ⟨?_, generateId_length 8 (s.idDraws.headD 0), hlo, hhi,
    ⟨createdBlob s body, ?_, rfl, hlo, hhi⟩⟩
  · rw [hstep]
  · rw [hstep]
    exact snapshotDownload_found _ h _ _ hauth (dictGet_dictSet_self _ _ _)

theorem create_id_and_size_bounds_witness :
    initState.snapshot_lock = false ∧
    verifyHeader initState ⟨some "test_header", none⟩ = true ∧
    initState.min_snapshot_size = 1024 * 1024 * 3 ∧
    initState.max_snapshot_size = 1024 * 1024 * 5 ∧
    (newSnapshot initState ⟨some "test_header", none⟩ (.obj [])).1 =
      .ok (formatDataResponse (.obj
        [("slug", .str (generateId 8 (initState.idDraws.headD 0)))])) :=
  ⟨rfl, rfl, rfl, rfl,
   (create_id_and_size_bounds initState ⟨some "test_header", none⟩ (.obj [])
      rfl rfl rfl rfl).1⟩

/-- C10: an authenticated upload whose blob carries an identifier already
present in the Store succeeds (no error), stores the uploaded record and
bytes under that identifier, and creates no duplicate entry: both dicts
keep their former length, the old record and bytes having been replaced
in place. -/
theorem upload_existing_replaces (s : SupState) (h : Headers)
    (slug : String) (name : Json) (date pad : Nat)
    (folders addons password : Option Json)
    (hauth : verifyHeader s h = true)
    (hmeta : dictContains s.snapshots slug = true)
    (hdata : dictContains s.snapshot_data slug = true) :
    (uploadSnapshot s h (.archive slug name date pad folders addons password)).1 =
      .ok (formatDataResponse (.obj [("slug", .str slug)])) ∧
    dictGet (uploadSnapshot s h
        (.archive slug name date pad folders addons password)).2.snapshots slug =
      some { slug := slug, name := name, date := date, size := pad,
             folders := folders, addons := addons,
             isProtected := match password with
               | none => false
               | some p => jTruthy p } ∧
    dictGet (uploadSnapshot s h
        (.archive slug name date pad folders addons password)).2.snapshot_data slug =
      some (.archive slug name date pad folders addons password) ∧
    (uploadSnapshot s h
        (.archive slug name date pad folders addons password)).2.snapshots.length =
      s.snapshots.length ∧
    (uploadSnapshot s h
        (.archive slug name date pad folders addons password)).2.snapshot_data.length =
      s.snapshot_data.length := by
  refine ⟨?_, ?_, ?_, ?_, ?_⟩ <;>
    simp [uploadSnapshot, hauth, parseSnapshotInfo, dictGet_dictSet_self,
      dictSet_length_of_contains _ _ _ hmeta, dictSet_length_of_contains _ _ _ hdata]

theorem upload_existing_replaces_witness :
    verifyHeader (uploadSnapshot initState ⟨some "test_header", none⟩
        (.archive "aa" (.str "v1") 1 5 none none none)).2
      ⟨some "test_header", none⟩ = true ∧
    dictContains (uploadSnapshot initState ⟨some "test_header", none⟩
        (.archive "aa" (.str "v1") 1 5 none none none)).2.snapshots "aa" = true ∧
    (uploadSnapshot (uploadSnapshot initState ⟨some "test_header", none⟩
          (.archive "aa" (.str "v1") 1 5 none none none)).2
        ⟨some "test_header", none⟩
        (.archive "aa" (.str "v2") 2 6 none none none)).2.snapshots.length =
      (uploadSnapshot initState ⟨some "test_header", none⟩
        (.archive "aa" (.str "v1") 1 5 none none none)).2.snapshots.length :=
  ⟨rfl, rfl,
   (upload_existing_replaces (uploadSnapshot initState ⟨some "test_header", none⟩
        (.archive "aa" (.str "v1") 1 5 none none none)).2
      ⟨some "test_header", none⟩ "aa" (.str "v2") 2 6 none none none
      rfl rfl rfl).2.2.2.1⟩
